import Mathlib

/-!
Verification of the openScope waypoint model and navigation library.

The JavaScript sources are shallowly embedded here:
WaypointModel (the variant with the strict vector guard, file part_001,
whose parsing code is identical to the copy in WaypointModel.js) and the
NavigationLibrary facade from WaypointModel.js.  JavaScript strings are
embedded as lists of characters, JavaScript numbers holding parse results
as Option Int (none models NaN), and fallible methods as Except values.
External collaborators that are not part of the provided sources
(FixCollection, AirwayModel, ProcedureModel, StaticPositionModel and the
constants modules) are modelled from the specification where noted.
-/

namespace OpenScope

/-- JavaScript strings, embedded as lists of characters. -/
abbrev JsStr := List Char

/-- INVALID_NUMBER sentinel from globalConstants: the unset value -1. -/
def INVALID_NUMBER : Int := -1

/-- Errors thrown by the embedded code, one constructor per throw site. -/
inductive Err where
| invalidRestrictionHead
| fixNotFound
| notAWaypointModel
| vectorWaypointCalculation
| nullPositionModel
| duplicateAirway
| duplicateProcedure
| fixCollectionAlreadyPopulated
deriving DecidableEq, Repr

/-- Modelled from the spec: StaticPositionModel is an external collaborator;
positions are kept abstract, identified by a number, and the geometric
operations on them are taken as parameters where needed. -/
structure Pos where
id : Nat
deriving DecidableEq, Repr

/-- Keys of a keyed collection, in insertion order. -/
def keysOf {γ : Type} (col : List (JsStr × γ)) : List JsStr :=
col.map Prod.fst

/-- Membership lookup in a keyed collection. -/
def assocLookup {γ : Type} (col : List (JsStr × γ)) (k : JsStr) : Option γ :=
match col with
| [] => none
| (k1, v) :: rest => if k1 = k then some v else assocLookup rest k

/-- Embedding of the JavaScript s.replace(c, two-character empty string):
with a plain (non-regex) pattern, replace removes only the first
occurrence of the pattern from the string. -/
def replaceFirst (c : Char) : JsStr → JsStr
| [] => []
| x :: xs => if x = c then xs else x :: replaceFirst c xs

/-- Embedding of String.prototype.split with a single-character separator. -/
def jsSplit (c : Char) : JsStr → List JsStr
| [] => [[]]
| x :: xs =>
  match jsSplit c xs with
  | [] => [[x]]
  | h :: t => if x = c then [] :: h :: t else (x :: h) :: t

/-- Numeric value of a digit string (most significant digit first). -/
def digitsVal (s : JsStr) : Nat :=
s.foldl (fun a c => a * 10 + (c.toNat - Char.toNat '0')) 0

/-- Leading decimal digits of a string, none when there are no digits. -/
def parseDigitsNat (s : JsStr) : Option Nat :=
let ds := s.takeWhile Char.isDigit
if ds.isEmpty then none else some (digitsVal ds)

/-- Embedding of parseInt(s, DECIMAL_RADIX): an optional sign followed by
leading decimal digits; none models the NaN result when no digit leads. -/
def jsParseInt (s : JsStr) : Option Int :=
match s with
| [] => none
| c :: rest =>
  if c = '-' then (parseDigitsNat rest).map (fun n => -(n : Int))
  else if c = '+' then (parseDigitsNat rest).map (fun n => (n : Int))
  else (parseDigitsNat (c :: rest)).map (fun n => (n : Int))

/-- Turn direction of a holding pattern. -/
inductive TurnDirection where
| left
| right
deriving DecidableEq, Repr

/-- Hold parameters record: timer, inboundHeading, legLength, turnDirection. -/
structure HoldParameters where
inboundHeading : Option ℚ
legLength : ℚ
timer : ℚ
turnDirection : TurnDirection
deriving DecidableEq, Repr

/-- Modelled from the spec: DEFAULT_HOLD_PARAMETERS lives in the missing
waypointConstants module; its values follow the hold defaults hard-coded in
the sibling WaypointModel copy: inboundHeading unset, legLength 1,
timer INVALID_NUMBER, turnDirection right. -/
def DEFAULT_HOLD_PARAMETERS : HoldParameters :=
{ inboundHeading := none
  legLength := 1
  timer := -1
  turnDirection := TurnDirection.right }

/-- The WaypointModel state: the four restriction bounds (Option Int with
none modelling NaN; the sentinel unset value is the number -1), the hold
parameters record, the three classification flags, the stored name and the
resolved position. -/
structure WaypointModel where
altitudeMaximum : Option Int
altitudeMinimum : Option Int
speedMaximum : Option Int
speedMinimum : Option Int
holdParameters : HoldParameters
isFlyOverWaypoint : Bool
isHoldWaypoint : Bool
isVectorWaypoint : Bool
name : JsStr
positionModel : Option Pos
deriving DecidableEq, Repr

/-- The field values the WaypointModel constructor assigns before init. -/
def defaultWaypoint : WaypointModel :=
{ altitudeMaximum := some (-1)
  altitudeMinimum := some (-1)
  speedMaximum := some (-1)
  speedMinimum := some (-1)
  holdParameters := DEFAULT_HOLD_PARAMETERS
  isFlyOverWaypoint := false
  isHoldWaypoint := false
  isVectorWaypoint := false
  name := []
  positionModel := none }

/-- Embedding of WaypointModel.reset: every field is set back to the value
the constructor assigns. -/
def resetW (w : WaypointModel) : WaypointModel :=
{ w with
  altitudeMaximum := some (-1)
  altitudeMinimum := some (-1)
  speedMaximum := some (-1)
  speedMinimum := some (-1)
  holdParameters := DEFAULT_HOLD_PARAMETERS
  isFlyOverWaypoint := false
  isHoldWaypoint := false
  isVectorWaypoint := false
  name := []
  positionModel := none }

/-- Construction input: a bare fix-name string or a pair of fix name and
restriction string (the two valid shapes accepted by the constructor). -/
inductive WaypointData where
| fixOnly (s : JsStr)
| withRestrictions (s r : JsStr)
deriving DecidableEq, Repr

/-- The fix-name token of a construction input. -/
def waypointDataFixName : WaypointData → JsStr
| WaypointData.fixOnly s => s
| WaypointData.withRestrictions s _ => s

/-- The restriction string of a construction input (empty for a bare name). -/
def waypointDataRestrictions : WaypointData → JsStr
| WaypointData.fixOnly _ => []
| WaypointData.withRestrictions _ r => r

/-- Embedding of the stored-name computation in init:
fixName.replace removing the first at-sign, then the first caret. -/
def strippedName (fixName : JsStr) : JsStr :=
replaceFirst ('^') (replaceFirst ('@') fixName)

/-- Embedding of _initSpecialWaypoint: check the fly-over caret first, then
the hold at-sign, then the vector hash; each branch returns immediately. -/
def initSpecialWaypoint (fixName : JsStr) (w : WaypointModel) : WaypointModel :=
if '^' ∈ fixName then { w with isFlyOverWaypoint := true }
else if '@' ∈ fixName then { w with isHoldWaypoint := true }
else if '#' ∈ fixName then { w with isVectorWaypoint := true }
else w

/-- Embedding of _applyAltitudeRestriction: parse the remainder, multiply by
100, then store into the minimum only, the maximum only, or both, depending
on a plus sign or minus sign anywhere in the remainder. -/
def applyAltitudeRestriction (restriction : JsStr) (w : WaypointModel) : WaypointModel :=
let altitude := (jsParseInt restriction).map (fun n => n * 100)
if '+' ∈ restriction then { w with altitudeMinimum := altitude }
else if '-' ∈ restriction then { w with altitudeMaximum := altitude }
else { w with altitudeMaximum := altitude, altitudeMinimum := altitude }

/-- Embedding of _applySpeedRestriction: as the altitude case, without the
factor of 100. -/
def applySpeedRestriction (restriction : JsStr) (w : WaypointModel) : WaypointModel :=
let speed := jsParseInt restriction
if '+' ∈ restriction then { w with speedMinimum := speed }
else if '-' ∈ restriction then { w with speedMaximum := speed }
else { w with speedMaximum := speed, speedMinimum := speed }

/-- The loop body of _applyRestrictions over the split token list: dispatch
on the first character A or S, otherwise throw. -/
def applyRestrictionTokens (w : WaypointModel) : List JsStr → Except Err WaypointModel
| [] => Except.ok w
| r :: rest =>
  match r with
  | [] => Except.error Err.invalidRestrictionHead
  | c :: remainder =>
    if c = 'A' then applyRestrictionTokens (applyAltitudeRestriction remainder w) rest
    else if c = 'S' then applyRestrictionTokens (applySpeedRestriction remainder w) rest
    else Except.error Err.invalidRestrictionHead

/-- Embedding of _applyRestrictions: nothing to do on an empty string,
otherwise split on the pipe character and apply each token. -/
def applyRestrictions (restrictions : JsStr) (w : WaypointModel) : Except Err WaypointModel :=
if restrictions.isEmpty then Except.ok w
else applyRestrictionTokens w (jsSplit ('|') restrictions)

/-- Embedding of _initializePosition: skipped for vector waypoints; look the
stored name up in the fix registry (passed explicitly here in place of the
FixCollection singleton) and throw when it is unknown. -/
def initializePosition (reg : List (JsStr × Pos)) (w : WaypointModel) : Except Err WaypointModel :=
if w.isVectorWaypoint then Except.ok w
else
  match assocLookup reg w.name with
  | none => Except.error Err.fixNotFound
  | some p => Except.ok { w with positionModel := some p }

/-- Embedding of WaypointModel.init: compute the stored name, classify the
special markers, apply the restrictions, then resolve the position. -/
def initW (reg : List (JsStr × Pos)) (w : WaypointModel) (d : WaypointData) : Except Err WaypointModel :=
let fixName := waypointDataFixName d
let restrictions := waypointDataRestrictions d
let w1 := { w with name := strippedName fixName }
let w2 := initSpecialWaypoint fixName w1
match applyRestrictions restrictions w2 with
| Except.error e => Except.error e
| Except.ok w3 => initializePosition reg w3

/-- A fresh construction: the constructor assigns the default field values
and then calls init on the given data. -/
def constructW (reg : List (JsStr × Pos)) (d : WaypointData) : Except Err WaypointModel :=
initW reg defaultWaypoint d

/-- Embedding of degreesToRadians from the unit-converter module. -/
noncomputable def degreesToRadians (degrees : Int) : ℝ :=
(degrees : ℝ) * Real.pi / 180

/-- Embedding of getVector: no value for non-vector waypoints; otherwise
remove the first hash from the stored name, parse the rest as a decimal
integer and convert to radians.  The outer Option models the undefined
return, the inner one a NaN heading. -/
noncomputable def getVector (w : WaypointModel) : Option (Option ℝ) :=
if w.isVectorWaypoint then
  some ((jsParseInt (replaceFirst ('#') w.name)).map degreesToRadians)
else none

/-- The argument passed to the bearing and distance methods: any JavaScript
value, either a WaypointModel instance or something that is not one. -/
inductive BearingArg where
| wp (w : WaypointModel)
| notWaypointModel

/-- Embedding of _ensureNonVectorWaypointsForThisAndWaypoint: throw when the
argument is not a WaypointModel instance, and when the receiver or the
argument is a vector waypoint. -/
def ensureNonVectorWaypointsForThisAndWaypoint (self : WaypointModel) (arg : BearingArg) : Except Err Unit :=
match arg with
| BearingArg.notWaypointModel => Except.error Err.notAWaypointModel
| BearingArg.wp other =>
  if self.isVectorWaypoint || other.isVectorWaypoint then
    Except.error Err.vectorWaypointCalculation
  else Except.ok ()

/-- Embedding of the strict calculateBearingToWaypoint: run the guard, then
delegate to the position model.  bearingToPosition on the external position
model is abstracted as the parameter bearingFn; reading it off a null
position would itself throw, modelled by the nullPositionModel error. -/
def calculateBearingToWaypoint (bearingFn : Pos → Pos → ℝ) (self : WaypointModel) (arg : BearingArg) : Except Err ℝ :=
match ensureNonVectorWaypointsForThisAndWaypoint self arg with
| Except.error e => Except.error e
| Except.ok _ =>
  match arg with
  | BearingArg.notWaypointModel => Except.error Err.notAWaypointModel
  | BearingArg.wp other =>
    match self.positionModel, other.positionModel with
    | some p, some q => Except.ok (bearingFn p q)
    | _, _ => Except.error Err.nullPositionModel

/-- Embedding of the strict calculateDistanceToWaypoint, with
distanceToPosition abstracted as the parameter distanceFn. -/
def calculateDistanceToWaypoint (distanceFn : Pos → Pos → ℝ) (self : WaypointModel) (arg : BearingArg) : Except Err ℝ :=
match ensureNonVectorWaypointsForThisAndWaypoint self arg with
| Except.error e => Except.error e
| Except.ok _ =>
  match arg with
  | BearingArg.notWaypointModel => Except.error Err.notAWaypointModel
  | BearingArg.wp other =>
    match self.positionModel, other.positionModel with
    | some p, some q => Except.ok (distanceFn p q)
    | _, _ => Except.error Err.nullPositionModel

/-!  The navigation library. -/

/-- Modelled from the spec: AirwayModel is not among the provided sources;
it stores the airway name and the ordered member fix names, which the
fixNameCollection accessor exposes for the integrity scan. -/
structure AirwayModel where
name : JsStr
fixNameCollection : List JsStr
deriving DecidableEq, Repr

/-- SID or STAR tag from the PROCEDURE_TYPE constants. -/
inductive ProcType where
| sid
| star
deriving DecidableEq, Repr

/-- Modelled from the spec: ProcedureModel is not among the provided
sources; the raw definition is abstracted to the list of fix names
appearing in its entry, body and exit branches, which is exactly what
getAllFixNamesInUse returns for the integrity scan. -/
structure ProcedureModel where
procedureType : ProcType
fixNamesInUse : List JsStr
deriving DecidableEq, Repr

/-- The shared shape of the three collection-building loops in init: walk
the input mapping in order, throw the given duplicate error when a key is
already present, otherwise insert the constructed model and continue. -/
def keyedInsertFold {β γ : Type} (mk : JsStr → β → γ) (dupErr : Err) (col : List (JsStr × γ)) : List (JsStr × β) → Except Err (List (JsStr × γ))
| [] => Except.ok col
| (k, v) :: rest =>
  if k ∈ keysOf col then Except.error dupErr
  else keyedInsertFold mk dupErr (col ++ [(k, mk k v)]) rest

/-- Embedding of _initializeAirwayCollection: each airway mapping entry
becomes an AirwayModel; a name already present throws. -/
def initializeAirwayCollection (col : List (JsStr × AirwayModel)) (airways : List (JsStr × List JsStr)) : Except Err (List (JsStr × AirwayModel)) :=
keyedInsertFold (fun airwayName fixNames => AirwayModel.mk airwayName fixNames) Err.duplicateAirway col airways

/-- Embedding of _initializeProcedureCollection: fold the sids and then the
stars into the one procedure collection, so an identifier reused across the
two namespaces throws as well. -/
def initializeProcedureCollection (col : List (JsStr × ProcedureModel)) (sids stars : List (JsStr × List JsStr)) : Except Err (List (JsStr × ProcedureModel)) :=
match keyedInsertFold (fun _ v => ProcedureModel.mk ProcType.sid v) Err.duplicateProcedure col sids with
| Except.error e => Except.error e
| Except.ok c => keyedInsertFold (fun _ v => ProcedureModel.mk ProcType.star v) Err.duplicateProcedure c stars

/-- The airport descriptor consumed by init, with the raw SID and STAR
definitions abstracted to the fix names they reference. -/
structure AirportJson where
position : Pos
fixes : List (JsStr × Pos)
airways : List (JsStr × List JsStr)
sids : List (JsStr × List JsStr)
stars : List (JsStr × List JsStr)

/-- The state owned by the NavigationLibrary facade together with the
FixCollection singleton it drives. -/
structure NavState where
fixCollection : List (JsStr × Pos)
airwayCollection : List (JsStr × AirwayModel)
procedureCollection : List (JsStr × ProcedureModel)
referencePosition : Option Pos

/-- The uninitialized library: empty collections, no reference position. -/
def initialNav : NavState :=
{ fixCollection := []
  airwayCollection := []
  procedureCollection := []
  referencePosition := none }

/-- Modelled from the spec: FixCollection.addItems builds the full keyed
fix collection once and fails if invoked while already populated. -/
def fixCollectionAddItems (current fixes : List (JsStr × Pos)) : Except Err (List (JsStr × Pos)) :=
if current.isEmpty then Except.ok fixes
else Except.error Err.fixCollectionAlreadyPopulated

/-- Embedding of NavigationLibrary.init: set the reference position, then
populate the fix collection, the airway collection and the procedure
collection in order; any throw aborts the whole call. -/
def navInit (airport : AirportJson) (st : NavState) : Except Err NavState :=
let st1 := { st with referencePosition := some airport.position }
match fixCollectionAddItems st1.fixCollection airport.fixes with
| Except.error e => Except.error e
| Except.ok fixCol =>
  let st2 := { st1 with fixCollection := fixCol }
  match initializeAirwayCollection st2.airwayCollection airport.airways with
  | Except.error e => Except.error e
  | Except.ok airwayCol =>
    let st3 := { st2 with airwayCollection := airwayCol }
    match initializeProcedureCollection st3.procedureCollection airport.sids airport.stars with
    | Except.error e => Except.error e
    | Except.ok procCol => Except.ok { st3 with procedureCollection := procCol }

/-- Embedding of NavigationLibrary.reset: release the fix collection and
all owned collections, returning to the uninitialized state. -/
def navReset (_st : NavState) : NavState :=
initialNav

/-- Embedding of the findFixByName facade; FixCollection.findFixByName is
modelled from the spec as a non-throwing keyed lookup. -/
def navFindFixByName (st : NavState) (fixName : JsStr) : Option Pos :=
assocLookup st.fixCollection fixName

/-- Embedding of hasAirway: the membership test of the in operator. -/
def navHasAirway (st : NavState) (airwayId : JsStr) : Bool :=
decide (airwayId ∈ keysOf st.airwayCollection)

/-- Embedding of getAirway: null when hasAirway fails, else the entry. -/
def navGetAirway (st : NavState) (airwayId : JsStr) : Option AirwayModel :=
if navHasAirway st airwayId then assocLookup st.airwayCollection airwayId
else none

/-- Embedding of hasProcedure. -/
def navHasProcedure (st : NavState) (procedureId : JsStr) : Bool :=
decide (procedureId ∈ keysOf st.procedureCollection)

/-- Embedding of getProcedure: null when hasProcedure fails. -/
def navGetProcedure (st : NavState) (procedureId : JsStr) : Option ProcedureModel :=
if navHasProcedure st procedureId then assocLookup st.procedureCollection procedureId
else none

/-- Embedding of hasFixName: whether findFixByName gives a non-nil value. -/
def navHasFixName (st : NavState) (fixName : JsStr) : Bool :=
(navFindFixByName st fixName).isSome

/-- Embedding of getFixRelativePosition; FixCollection is modelled from the
spec as returning the relative position of a known fix and an explicit
absence otherwise, with positions kept abstract. -/
def navGetFixRelativePosition (st : NavState) (fixName : JsStr) : Option Pos :=
navFindFixByName st fixName

/-- Embedding of the hasSids getter: filter the procedure collection by the
SID tag and test for a non-empty result. -/
def navHasSids (st : NavState) : Bool :=
(st.procedureCollection.filter (fun kv => decide (kv.2.procedureType = ProcType.sid))).length > 0

/-- Embedding of the hasStars getter. -/
def navHasStars (st : NavState) : Bool :=
(st.procedureCollection.filter (fun kv => decide (kv.2.procedureType = ProcType.star))).length > 0

/-- Embedding of the lodash uniq call: keep the first occurrence of each
element, in order.  The seen accumulator holds elements already emitted. -/
def jsUniqAux (seen : List JsStr) : List JsStr → List JsStr
| [] => []
| x :: xs => if x ∈ seen then jsUniqAux seen xs else x :: jsUniqAux (x :: seen) xs

/-- lodash uniq. -/
def jsUniq (l : List JsStr) : List JsStr :=
jsUniqAux [] l

/-- Embedding of the default Array.prototype.sort: lexicographic string
order, realized by insertion sort over the linear order on char lists. -/
def sortStrings (l : List JsStr) : List JsStr :=
List.insertionSort (fun a b => a ≤ b) l

/-- Embedding of _getAllFixNamesInUse: flatten the airway fix names and the
procedure fix-name groups, de-duplicate, and sort. -/
def navGetAllFixNamesInUse (st : NavState) : List JsStr :=
let airwayFixes := st.airwayCollection.map (fun kv => kv.2.fixNameCollection)
let fixGroups := st.procedureCollection.map (fun kv => kv.2.fixNamesInUse)
sortStrings (jsUniq (airwayFixes ++ fixGroups).flatten)

/-- The filter inside _showConsoleWarningForUndefinedFixes: the fix names
in use that findFixByName cannot resolve. -/
def navMissingFixes (st : NavState) : List JsStr :=
(navGetAllFixNamesInUse st).filter (fun fix => (navFindFixByName st fix).isNone)

/-- Embedding of _showConsoleWarningForUndefinedFixes: no output when
nothing is missing, otherwise the warned list. -/
def showConsoleWarningForUndefinedFixes (st : NavState) : Option (List JsStr) :=
if (navMissingFixes st).length < 1 then none
else some (navMissingFixes st)

/-- Every fix name referenced by some airway or procedure of the library,
with multiplicity, before de-duplication and sorting. -/
def referencedFixNames (st : NavState) : List JsStr :=
(st.airwayCollection.map (fun kv => kv.2.fixNameCollection) ++ st.procedureCollection.map (fun kv => kv.2.fixNamesInUse)).flatten

/-!  Lemmas about the waypoint embedding. -/

/-- The non-restriction observable state shared by two waypoints: everything
except the four restriction bounds. -/
def sameCore (w w' : WaypointModel) : Prop :=
w'.name = w.name ∧
w'.isFlyOverWaypoint = w.isFlyOverWaypoint ∧
w'.isHoldWaypoint = w.isHoldWaypoint ∧
w'.isVectorWaypoint = w.isVectorWaypoint ∧
w'.positionModel = w.positionModel ∧
w'.holdParameters = w.holdParameters

theorem sameCore_refl (w : WaypointModel) : sameCore w w := by
simp [sameCore]

theorem sameCore_trans {w1 w2 w3 : WaypointModel} (h1 : sameCore w1 w2) (h2 : sameCore w2 w3) : sameCore w1 w3 := by
obtain ⟨a1, b1, c1, d1, e1, f1⟩ := h1
obtain ⟨a2, b2, c2, d2, e2, f2⟩ := h2
exact ⟨a2.trans a1, b2.trans b1, c2.trans c1, d2.trans d1, e2.trans e1, f2.trans f1⟩

theorem sameCore_applyAltitudeRestriction (r : JsStr) (w : WaypointModel) : sameCore w (applyAltitudeRestriction r w) := by
by_cases h1 : ('+') ∈ r
· simp [sameCore, applyAltitudeRestriction, h1]
· by_cases h2 : ('-') ∈ r <;> simp [sameCore, applyAltitudeRestriction, h1, h2]

theorem sameCore_applySpeedRestriction (r : JsStr) (w : WaypointModel) : sameCore w (applySpeedRestriction r w) := by
by_cases h1 : ('+') ∈ r
· simp [sameCore, applySpeedRestriction, h1]
· by_cases h2 : ('-') ∈ r <;> simp [sameCore, applySpeedRestriction, h1, h2]

/-- The restriction loop never changes the name, the classification flags,
the position or the hold parameters. -/
theorem applyRestrictionTokens_sameCore : ∀ (ts : List JsStr) (w w' : WaypointModel), applyRestrictionTokens w ts = Except.ok w' → sameCore w w' := by
intro ts
induction ts with
| nil =>
  intro w w' h
  simp [applyRestrictionTokens] at h
  subst h
  exact sameCore_refl w
| cons r rest ih =>
  intro w w' h
  match r with
  | [] => simp [applyRestrictionTokens] at h
  | c :: remainder =>
    by_cases hA : c = 'A'
    · simp [applyRestrictionTokens, hA] at h
      exact sameCore_trans (sameCore_applyAltitudeRestriction remainder w) (ih _ _ h)
    · by_cases hS : c = 'S'
      · simp [applyRestrictionTokens, hA, hS] at h
        exact sameCore_trans (sameCore_applySpeedRestriction remainder w) (ih _ _ h)
      · simp [applyRestrictionTokens, hA, hS] at h

theorem applyRestrictions_sameCore {r : JsStr} {w w' : WaypointModel} (h : applyRestrictions r w = Except.ok w') : sameCore w w' := by
unfold applyRestrictions at h
by_cases he : r.isEmpty
· simp [he] at h
  subst h
  exact sameCore_refl w
· simp [he] at h
  exact applyRestrictionTokens_sameCore _ _ _ h

/-- Position initialization of a vector waypoint is a no-op. -/
theorem initializePosition_vector {reg : List (JsStr × Pos)} {w : WaypointModel} (h : w.isVectorWaypoint = true) : initializePosition reg w = Except.ok w := by
simp [initializePosition, h]

/-- Characterization of a successful position initialization: every field
other than the position is preserved, and the position is filled from the
registry exactly when the waypoint is not a vector waypoint. -/
theorem initializePosition_ok {reg : List (JsStr × Pos)} {w w' : WaypointModel} (h : initializePosition reg w = Except.ok w') :
  w'.name = w.name ∧ w'.isFlyOverWaypoint = w.isFlyOverWaypoint ∧
  w'.isHoldWaypoint = w.isHoldWaypoint ∧ w'.isVectorWaypoint = w.isVectorWaypoint ∧
  w'.altitudeMaximum = w.altitudeMaximum ∧ w'.altitudeMinimum = w.altitudeMinimum ∧
  w'.speedMaximum = w.speedMaximum ∧ w'.speedMinimum = w.speedMinimum ∧
  w'.holdParameters = w.holdParameters ∧
  ((w.isVectorWaypoint = true ∧ w'.positionModel = w.positionModel) ∨
   (w.isVectorWaypoint = false ∧ ∃ p, assocLookup reg w.name = some p ∧ w'.positionModel = some p)) := by
unfold initializePosition at h
by_cases hv : w.isVectorWaypoint = true
· rw [if_pos hv] at h
  simp at h
  subst h
  simp [hv]
· rw [if_neg hv] at h
  match hl : assocLookup reg w.name with
  | none =>
    rw [hl] at h
    simp at h
  | some p =>
    rw [hl] at h
    simp at h
    subst h
    refine ⟨rfl, rfl, rfl, rfl, rfl, rfl, rfl, rfl, rfl, Or.inr ⟨by simpa using hv, ⟨p, rfl, rfl⟩⟩⟩

/-- A failed lookup for a non-vector waypoint throws. -/
theorem initializePosition_notFound {reg : List (JsStr × Pos)} {w : WaypointModel} (hv : w.isVectorWaypoint = false) (hl : assocLookup reg w.name = none) : initializePosition reg w = Except.error Err.fixNotFound := by
simp [initializePosition, hv, hl]

theorem initSpecialWaypoint_flyOver {t : JsStr} (h : ('^') ∈ t) (w : WaypointModel) : initSpecialWaypoint t w = { w with isFlyOverWaypoint := true } := by
simp [initSpecialWaypoint, h]

theorem initSpecialWaypoint_hold {t : JsStr} (h1 : ('^') ∉ t) (h2 : ('@') ∈ t) (w : WaypointModel) : initSpecialWaypoint t w = { w with isHoldWaypoint := true } := by
simp [initSpecialWaypoint, h1, h2]

theorem initSpecialWaypoint_vector {t : JsStr} (h1 : ('^') ∉ t) (h2 : ('@') ∉ t) (h3 : ('#') ∈ t) (w : WaypointModel) : initSpecialWaypoint t w = { w with isVectorWaypoint := true } := by
simp [initSpecialWaypoint, h1, h2, h3]

theorem initSpecialWaypoint_plain {t : JsStr} (h1 : ('^') ∉ t) (h2 : ('@') ∉ t) (h3 : ('#') ∉ t) (w : WaypointModel) : initSpecialWaypoint t w = w := by
simp [initSpecialWaypoint, h1, h2, h3]

/-- Decomposition of a successful init into its three stages. -/
theorem initW_ok_decompose {reg : List (JsStr × Pos)} {w : WaypointModel} {d : WaypointData} {w' : WaypointModel} (h : initW reg w d = Except.ok w') :
  ∃ w3, applyRestrictions (waypointDataRestrictions d) (initSpecialWaypoint (waypointDataFixName d) { w with name := strippedName (waypointDataFixName d) }) = Except.ok w3 ∧ initializePosition reg w3 = Except.ok w' := by
simp only [initW] at h
split at h
· simp at h
· rename_i w3 heq
  exact ⟨w3, heq, h⟩

/-- The classification flags of a successfully constructed waypoint, as
boolean functions of the marker characters of the raw token. -/
theorem constructW_flags {reg : List (JsStr × Pos)} {d : WaypointData} {w : WaypointModel} (h : constructW reg d = Except.ok w) :
  w.isFlyOverWaypoint = decide (('^') ∈ waypointDataFixName d) ∧
  w.isHoldWaypoint = (decide (('^') ∉ waypointDataFixName d) && decide (('@') ∈ waypointDataFixName d)) ∧
  w.isVectorWaypoint = (decide (('^') ∉ waypointDataFixName d) && decide (('@') ∉ waypointDataFixName d) && decide (('#') ∈ waypointDataFixName d)) := by
obtain ⟨w3, hr, hp⟩ := initW_ok_decompose h
obtain ⟨_, hf3, hh3, hv3, _, _⟩ := applyRestrictions_sameCore hr
obtain ⟨_, hf, hh, hv, _⟩ := initializePosition_ok hp
have ef : w.isFlyOverWaypoint = (initSpecialWaypoint (waypointDataFixName d) { defaultWaypoint with name := strippedName (waypointDataFixName d) }).isFlyOverWaypoint := hf.trans hf3
have eh : w.isHoldWaypoint = (initSpecialWaypoint (waypointDataFixName d) { defaultWaypoint with name := strippedName (waypointDataFixName d) }).isHoldWaypoint := hh.trans hh3
have ev : w.isVectorWaypoint = (initSpecialWaypoint (waypointDataFixName d) { defaultWaypoint with name := strippedName (waypointDataFixName d) }).isVectorWaypoint := hv.trans hv3
rw [ef, eh, ev]
by_cases h1 : ('^') ∈ waypointDataFixName d
· simp [initSpecialWaypoint, h1, defaultWaypoint]
· by_cases h2 : ('@') ∈ waypointDataFixName d
  · simp [initSpecialWaypoint, h1, h2, defaultWaypoint]
  · by_cases h3 : ('#') ∈ waypointDataFixName d <;>
      simp [initSpecialWaypoint, h1, h2, h3, defaultWaypoint]

/-- The stored name of a successfully constructed waypoint. -/
theorem constructW_name {reg : List (JsStr × Pos)} {d : WaypointData} {w : WaypointModel} (h : constructW reg d = Except.ok w) :
  w.name = strippedName (waypointDataFixName d) := by
obtain ⟨w3, hr, hp⟩ := initW_ok_decompose h
obtain ⟨hn3, _, _, _, _, _⟩ := applyRestrictions_sameCore hr
obtain ⟨hn, _⟩ := initializePosition_ok hp
have : (initSpecialWaypoint (waypointDataFixName d) { defaultWaypoint with name := strippedName (waypointDataFixName d) }).name = strippedName (waypointDataFixName d) := by
  unfold initSpecialWaypoint
  split
  · rfl
  · split
    · rfl
    · split <;> rfl
exact hn.trans (hn3.trans this)

/-- A token is classified as a vector when it holds a hash and no
higher-precedence marker. -/
def IsVectorToken (t : JsStr) : Prop :=
('^') ∉ t ∧ ('@') ∉ t ∧ ('#') ∈ t

instance instDecidableIsVectorToken (t : JsStr) : Decidable (IsVectorToken t) :=
inferInstanceAs (Decidable (('^') ∉ t ∧ ('@') ∉ t ∧ ('#') ∈ t))

theorem replaceFirst_of_not_mem {c : Char} {s : JsStr} (h : c ∉ s) : replaceFirst c s = s := by
induction s with
| nil => rfl
| cons x xs ih =>
  have hx : ¬(x = c) := fun he => h (he ▸ List.mem_cons_self x xs)
  have hxs : c ∉ xs := fun hm => h (List.mem_cons_of_mem x hm)
  simp [replaceFirst, hx, ih hxs]

theorem initSpecialWaypoint_name (t : JsStr) (w : WaypointModel) : (initSpecialWaypoint t w).name = w.name := by
unfold initSpecialWaypoint
split
· rfl
· split
  · rfl
  · split <;> rfl

theorem initSpecialWaypoint_positionModel (t : JsStr) (w : WaypointModel) : (initSpecialWaypoint t w).positionModel = w.positionModel := by
unfold initSpecialWaypoint
split
· rfl
· split
  · rfl
  · split <;> rfl

theorem initSpecialWaypoint_isVector_false {t : JsStr} {w : WaypointModel} (hw : w.isVectorWaypoint = false) (h : ¬ IsVectorToken t) : (initSpecialWaypoint t w).isVectorWaypoint = false := by
by_cases h1 : ('^') ∈ t
· simp [initSpecialWaypoint, h1, hw]
· by_cases h2 : ('@') ∈ t
  · simp [initSpecialWaypoint, h1, h2, hw]
  · by_cases h3 : ('#') ∈ t
    · exact absurd ⟨h1, h2, h3⟩ h
    · simp [initSpecialWaypoint, h1, h2, h3, hw]

theorem initSpecialWaypoint_isVector_true {t : JsStr} (h : IsVectorToken t) (w : WaypointModel) : (initSpecialWaypoint t w).isVectorWaypoint = true := by
obtain ⟨h1, h2, h3⟩ := h
simp [initSpecialWaypoint, h1, h2, h3]

theorem isDigit_ne_marker {c : Char} (h : c.isDigit = true) : c ≠ '-' ∧ c ≠ '+' ∧ c ≠ '@' ∧ c ≠ '^' ∧ c ≠ '#' := by
refine ⟨?_, ?_, ?_, ?_, ?_⟩ <;> intro he <;> rw [he] at h <;> exact absurd h (by decide)

/-- parseInt on a non-empty all-digit string returns its decimal value. -/
theorem jsParseInt_digits {ds : JsStr} (hne : ds ≠ []) (hall : ∀ c ∈ ds, c.isDigit = true) : jsParseInt ds = some ((digitsVal ds : Int)) := by
match ds with
| [] => exact absurd rfl hne
| c :: rest =>
  have hc := hall c (List.mem_cons_self c rest)
  obtain ⟨hd1, hd2, _⟩ := isDigit_ne_marker hc
  have htw : (c :: rest).takeWhile Char.isDigit = c :: rest := by
    rw [List.takeWhile_eq_self_iff]
    intro x hx
    exact hall x hx
  simp [jsParseInt, hd1, hd2, parseDigitsNat, htw]

/-!  Claim theorems. -/

/-- The CLAYT fix name of the worked example. -/
def CLAYT : JsStr := ['C', 'L', 'A', 'Y', 'T']

/-- The restriction string of the worked example, A50- then S210-. -/
def restrictionA50S210 : JsStr := ['A', '5', '0', '-', '|', 'S', '2', '1', '0', '-']

/-- A registry resolving the CLAYT fix. -/
def regCLAYT : List (JsStr × Pos) := [(CLAYT, Pos.mk 1)]

/-- The waypoint the worked example is expected to produce. -/
def claytWaypoint : WaypointModel :=
{ defaultWaypoint with
  name := CLAYT
  altitudeMaximum := some 5000
  speedMaximum := some 210
  positionModel := some (Pos.mk 1) }

/-- C1: a restriction token remainder is parsed as a base-10 integer and
scaled by 100 for altitude tokens; a plus sign anywhere sets only the
minimum, a minus sign anywhere sets only the maximum, no sign sets both
bounds equal; bounds no token touches keep the sentinel value; and the
CLAYT example with A50- and S210- produces altitudeMaximum 5000 and
speedMaximum 210 with both minima still at the sentinel -1. -/
theorem restriction_sign_semantics :
  (∀ (r : JsStr) (v : Int) (w : WaypointModel), jsParseInt r = some v → ('+') ∈ r →
    applyAltitudeRestriction r w = { w with altitudeMinimum := some (v * 100) }) ∧
  (∀ (r : JsStr) (v : Int) (w : WaypointModel), jsParseInt r = some v → ('+') ∉ r → ('-') ∈ r →
    applyAltitudeRestriction r w = { w with altitudeMaximum := some (v * 100) }) ∧
  (∀ (r : JsStr) (v : Int) (w : WaypointModel), jsParseInt r = some v → ('+') ∉ r → ('-') ∉ r →
    applyAltitudeRestriction r w = { w with altitudeMaximum := some (v * 100), altitudeMinimum := some (v * 100) }) ∧
  (∀ (r : JsStr) (v : Int) (w : WaypointModel), jsParseInt r = some v → ('+') ∈ r →
    applySpeedRestriction r w = { w with speedMinimum := some v }) ∧
  (∀ (r : JsStr) (v : Int) (w : WaypointModel), jsParseInt r = some v → ('+') ∉ r → ('-') ∈ r →
    applySpeedRestriction r w = { w with speedMaximum := some v }) ∧
  (∀ (r : JsStr) (v : Int) (w : WaypointModel), jsParseInt r = some v → ('+') ∉ r → ('-') ∉ r →
    applySpeedRestriction r w = { w with speedMaximum := some v, speedMinimum := some v }) ∧
  constructW regCLAYT (WaypointData.withRestrictions CLAYT restrictionA50S210) = Except.ok claytWaypoint := by
refine ⟨?_, ?_, ?_, ?_, ?_, ?_, ?_⟩
· intro r v w h hp
  simp [applyAltitudeRestriction, h, hp]
· intro r v w h hp hm
  simp [applyAltitudeRestriction, h, hp, hm]
· intro r v w h hp hm
  simp [applyAltitudeRestriction, h, hp, hm]
· intro r v w h hp
  simp [applySpeedRestriction, h, hp]
· intro r v w h hp hm
  simp [applySpeedRestriction, h, hp, hm]
· intro r v w h hp hm
  simp [applySpeedRestriction, h, hp, hm]
· rfl

/-- Witness for C1: the sign cases evaluated at concrete remainders 50+,
50-, 50, 210+, 210-, 210 on the default waypoint. -/
theorem restriction_sign_semantics_witness :
  applyAltitudeRestriction ['5', '0', '+'] defaultWaypoint = { defaultWaypoint with altitudeMinimum := some 5000 } ∧
  applyAltitudeRestriction ['5', '0', '-'] defaultWaypoint = { defaultWaypoint with altitudeMaximum := some 5000 } ∧
  applyAltitudeRestriction ['5', '0'] defaultWaypoint = { defaultWaypoint with altitudeMaximum := some 5000, altitudeMinimum := some 5000 } ∧
  applySpeedRestriction ['2', '1', '0', '+'] defaultWaypoint = { defaultWaypoint with speedMinimum := some 210 } ∧
  applySpeedRestriction ['2', '1', '0', '-'] defaultWaypoint = { defaultWaypoint with speedMaximum := some 210 } ∧
  applySpeedRestriction ['2', '1', '0'] defaultWaypoint = { defaultWaypoint with speedMaximum := some 210, speedMinimum := some 210 } := by
refine ⟨?_, ?_, ?_, ?_, ?_, ?_⟩
· exact restriction_sign_semantics.1 ['5', '0', '+'] 50 defaultWaypoint (by decide) (by decide)
· exact restriction_sign_semantics.2.1 ['5', '0', '-'] 50 defaultWaypoint (by decide) (by decide) (by decide)
· exact restriction_sign_semantics.2.2.1 ['5', '0'] 50 defaultWaypoint (by decide) (by decide) (by decide)
· exact restriction_sign_semantics.2.2.2.1 ['2', '1', '0', '+'] 210 defaultWaypoint (by decide) (by decide)
· exact restriction_sign_semantics.2.2.2.2.1 ['2', '1', '0', '-'] 210 defaultWaypoint (by decide) (by decide) (by decide)
· exact restriction_sign_semantics.2.2.2.2.2.1 ['2', '1', '0'] 210 defaultWaypoint (by decide) (by decide) (by decide)

/-- C2: special-waypoint classification checks the fly-over caret first,
then the hold at-sign, then the vector hash; at most one classification is
applied, and a token holding both a caret and a hash yields a fly-over,
non-vector waypoint. -/
theorem marker_precedence_classification :
  ∀ (reg : List (JsStr × Pos)) (d : WaypointData) (w : WaypointModel),
    constructW reg d = Except.ok w →
    ((('^') ∈ waypointDataFixName d →
        w.isFlyOverWaypoint = true ∧ w.isHoldWaypoint = false ∧ w.isVectorWaypoint = false) ∧
     (('^') ∉ waypointDataFixName d → ('@') ∈ waypointDataFixName d →
        w.isHoldWaypoint = true ∧ w.isFlyOverWaypoint = false ∧ w.isVectorWaypoint = false) ∧
     (('^') ∉ waypointDataFixName d → ('@') ∉ waypointDataFixName d → ('#') ∈ waypointDataFixName d →
        w.isVectorWaypoint = true ∧ w.isFlyOverWaypoint = false ∧ w.isHoldWaypoint = false) ∧
     (if w.isFlyOverWaypoint then 1 else 0) + (if w.isHoldWaypoint then 1 else 0) +
       (if w.isVectorWaypoint then 1 else 0) ≤ (1 : Nat)) := by
intro reg d w h
obtain ⟨hf, hh, hv⟩ := constructW_flags h
refine ⟨?_, ?_, ?_, ?_⟩
· intro h1
  rw [hf, hh, hv]
  simp [h1]
· intro h1 h2
  rw [hf, hh, hv]
  simp [h1, h2]
· intro h1 h2 h3
  rw [hf, hh, hv]
  simp [h1, h2, h3]
· rw [hf, hh, hv]
  by_cases h1 : ('^') ∈ waypointDataFixName d
  · simp [h1]
  · by_cases h2 : ('@') ∈ waypointDataFixName d
    · simp [h1, h2]
    · by_cases h3 : ('#') ∈ waypointDataFixName d <;> simp [h1, h2, h3]

/-- A registry resolving the stripped name of the token caret, A, hash, 1. -/
def regHash : List (JsStr × Pos) := [((['A', '#', '1'] : JsStr), Pos.mk 2)]

/-- The waypoint built from the token caret, A, hash, 1. -/
def flyOverHashWaypoint : WaypointModel :=
{ defaultWaypoint with
  name := ['A', '#', '1']
  isFlyOverWaypoint := true
  positionModel := some (Pos.mk 2) }

/-- Witness for C2: the token caret, A, hash, 1 holds both the fly-over and
the vector marker and is classified as a pure fly-over waypoint. -/
theorem marker_precedence_classification_witness :
  (('^') ∈ (['^', 'A', '#', '1'] : JsStr) →
     (flyOverHashWaypoint).isFlyOverWaypoint = true ∧ (flyOverHashWaypoint).isHoldWaypoint = false ∧
       (flyOverHashWaypoint).isVectorWaypoint = false) ∧
  (flyOverHashWaypoint).isFlyOverWaypoint = true ∧ (flyOverHashWaypoint).isVectorWaypoint = false := by
refine ⟨?_, ?_, ?_⟩
· exact fun h1 => (marker_precedence_classification regHash (WaypointData.fixOnly ['^', 'A', '#', '1']) flyOverHashWaypoint rfl).1 h1
· exact ((marker_precedence_classification regHash (WaypointData.fixOnly ['^', 'A', '#', '1']) flyOverHashWaypoint rfl).1 (by decide)).1
· exact ((marker_precedence_classification regHash (WaypointData.fixOnly ['^', 'A', '#', '1']) flyOverHashWaypoint rfl).1 (by decide)).2.2

/-- C6: reset returns a waypoint to the pristine constructor state, so a
reset followed by init on any token agrees with a fresh construction from
that token in every observable field. -/
theorem reset_reinit_roundtrip :
  (∀ w : WaypointModel, resetW w = defaultWaypoint) ∧
  (∀ (reg : List (JsStr × Pos)) (w : WaypointModel) (d : WaypointData),
    initW reg (resetW w) d = constructW reg d) := by
constructor
· intro w
  rfl
· intro reg w d
  rfl

/-- C3: a token whose only marker is a hash builds a vector waypoint with a
null position; when the hash is followed by digits, getVector parses them
as a base-10 degree value and converts it to radians; the hash, 2, 7, 0
token yields a heading within a thousandth of 4.712; and getVector returns
no value on every non-vector waypoint. -/
theorem vector_waypoint_heading :
  (∀ (reg : List (JsStr × Pos)) (t : JsStr), ('^') ∉ t → ('@') ∉ t → ('#') ∈ t →
    ∃ w, constructW reg (WaypointData.fixOnly t) = Except.ok w ∧
      w.isVectorWaypoint = true ∧ w.positionModel = none) ∧
  (∀ (reg : List (JsStr × Pos)) (ds : JsStr), ds ≠ [] → (∀ c ∈ ds, c.isDigit = true) →
    ∃ w, constructW reg (WaypointData.fixOnly (('#') :: ds)) = Except.ok w ∧
      w.isVectorWaypoint = true ∧ w.positionModel = none ∧
      getVector w = some (some (degreesToRadians (digitsVal ds)))) ∧
  (∀ w : WaypointModel, w.isVectorWaypoint = false → getVector w = none) ∧
  (∃ w r, constructW [] (WaypointData.fixOnly ['#', '2', '7', '0']) = Except.ok w ∧
    w.isVectorWaypoint = true ∧ w.positionModel = none ∧
    getVector w = some (some r) ∧ |r - 4.712| < 1 / 1000) := by
have build : ∀ (reg : List (JsStr × Pos)) (t : JsStr), ('^') ∉ t → ('@') ∉ t → ('#') ∈ t →
    constructW reg (WaypointData.fixOnly t) = Except.ok { defaultWaypoint with name := t, isVectorWaypoint := true } := by
  intro reg t h1 h2 h3
  have hs : strippedName t = t := by
    unfold strippedName
    rw [replaceFirst_of_not_mem h2, replaceFirst_of_not_mem h1]
  have e2 : initSpecialWaypoint t { defaultWaypoint with name := t } = { defaultWaypoint with name := t, isVectorWaypoint := true } := by
    rw [initSpecialWaypoint_vector h1 h2 h3]
  unfold constructW initW
  simp only [waypointDataFixName, waypointDataRestrictions]
  rw [hs, e2]
  simp [applyRestrictions, initializePosition]
have parsePart : ∀ (reg : List (JsStr × Pos)) (ds : JsStr), ds ≠ [] → (∀ c ∈ ds, c.isDigit = true) →
    ∃ w, constructW reg (WaypointData.fixOnly (('#') :: ds)) = Except.ok w ∧
      w.isVectorWaypoint = true ∧ w.positionModel = none ∧
      getVector w = some (some (degreesToRadians (digitsVal ds))) := by
  intro reg ds hne hall
  have hin : ∀ c : Char, c ∈ (('#') :: ds : JsStr) → c.isDigit = true ∨ c = '#' := by
    intro c hc
    rcases List.mem_cons.mp hc with hc | hc
    · exact Or.inr hc
    · exact Or.inl (hall c hc)
  have h1 : ('^') ∉ (('#') :: ds : JsStr) := by
    intro hm
    rcases hin _ hm with hd | hd
    · exact absurd rfl (isDigit_ne_marker hd).2.2.2.1
    · exact absurd hd (by decide)
  have h2 : ('@') ∉ (('#') :: ds : JsStr) := by
    intro hm
    rcases hin _ hm with hd | hd
    · exact absurd rfl (isDigit_ne_marker hd).2.2.1
    · exact absurd hd (by decide)
  have h3 : ('#') ∈ (('#') :: ds : JsStr) := List.mem_cons_self _ _
  refine ⟨{ defaultWaypoint with name := ('#') :: ds, isVectorWaypoint := true }, build reg _ h1 h2 h3, rfl, rfl, ?_⟩
  have hrep : replaceFirst ('#') (('#') :: ds) = ds := by simp [replaceFirst]
  simp [getVector, hrep, jsParseInt_digits hne hall]
refine ⟨fun reg t h1 h2 h3 => ⟨_, build reg t h1 h2 h3, rfl, rfl⟩, parsePart, ?_, ?_⟩
· intro w h
  simp [getVector, h]
· obtain ⟨w, hw, hv, hp, hg⟩ := parsePart [] ['2', '7', '0'] (by decide) (by decide)
  have hdv : (digitsVal ['2', '7', '0'] : Int) = 270 := by decide
  rw [hdv] at hg
  refine ⟨w, degreesToRadians 270, hw, hv, hp, hg, ?_⟩
  have hpi1 : (3.141592 : ℝ) < Real.pi := Real.pi_gt_d6
  have hpi2 : Real.pi < 3.141593 := Real.pi_lt_d6
  unfold degreesToRadians
  rw [abs_lt]
  push_cast
  constructor <;> nlinarith [hpi1, hpi2]

/-- Witness for C3: the vector construction and heading parse evaluated at
the hash, 2, 7, 0 token with an empty registry. -/
theorem vector_waypoint_heading_witness :
  ∃ w, constructW [] (WaypointData.fixOnly ['#', '2', '7', '0']) = Except.ok w ∧
    w.isVectorWaypoint = true ∧ w.positionModel = none ∧
    getVector w = some (some (degreesToRadians (digitsVal ['2', '7', '0']))) :=
vector_waypoint_heading.2.1 [] ['2', '7', '0'] (by decide) (by decide)

/-- C4: a non-vector construction whose stripped name the registry cannot
resolve throws; a successful non-vector construction carries exactly the
registry position for the stripped name, never a null one; and position
lookup is skipped entirely for vector tokens, whose position stays null. -/
theorem position_resolution_contract :
  (∀ (reg : List (JsStr × Pos)) (d : WaypointData), ¬ IsVectorToken (waypointDataFixName d) →
     assocLookup reg (strippedName (waypointDataFixName d)) = none →
     ∃ e, constructW reg d = Except.error e) ∧
  (∀ (reg : List (JsStr × Pos)) (d : WaypointData) (w : WaypointModel), constructW reg d = Except.ok w →
     ¬ IsVectorToken (waypointDataFixName d) →
     ∃ p, assocLookup reg (strippedName (waypointDataFixName d)) = some p ∧ w.positionModel = some p) ∧
  (∀ (reg : List (JsStr × Pos)) (d : WaypointData) (w : WaypointModel), constructW reg d = Except.ok w →
     IsVectorToken (waypointDataFixName d) → w.positionModel = none) := by
refine ⟨?_, ?_, ?_⟩
· intro reg d hnv hl
  match hc : constructW reg d with
  | Except.error e => exact ⟨e, rfl⟩
  | Except.ok w =>
    exfalso
    obtain ⟨w3, hr, hp⟩ := initW_ok_decompose hc
    obtain ⟨hn3, _, _, hv3, _, _⟩ := applyRestrictions_sameCore hr
    have hW3v : w3.isVectorWaypoint = false := by
      rw [hv3]
      exact initSpecialWaypoint_isVector_false rfl hnv
    have hW3n : w3.name = strippedName (waypointDataFixName d) := by
      rw [hn3, initSpecialWaypoint_name]
    rw [initializePosition_notFound hW3v (by rw [hW3n]; exact hl)] at hp
    simp at hp
· intro reg d w h hnv
  obtain ⟨w3, hr, hp⟩ := initW_ok_decompose h
  obtain ⟨hn3, _, _, hv3, _, _⟩ := applyRestrictions_sameCore hr
  have hW3v : w3.isVectorWaypoint = false := by
    rw [hv3]
    exact initSpecialWaypoint_isVector_false rfl hnv
  have hW3n : w3.name = strippedName (waypointDataFixName d) := by
    rw [hn3, initSpecialWaypoint_name]
  obtain ⟨_, _, _, _, _, _, _, _, _, hdisj⟩ := initializePosition_ok hp
  rcases hdisj with ⟨ht, _⟩ | ⟨_, p, hlk, hpos⟩
  · rw [hW3v] at ht
    exact absurd ht (by simp)
  · exact ⟨p, by rw [← hW3n]; exact hlk, hpos⟩
· intro reg d w h hv
  obtain ⟨w3, hr, hp⟩ := initW_ok_decompose h
  obtain ⟨_, _, _, hv3, hpos3, _⟩ := applyRestrictions_sameCore hr
  have hW3v : w3.isVectorWaypoint = true := by
    rw [hv3]
    exact initSpecialWaypoint_isVector_true hv _
  obtain ⟨_, _, _, _, _, _, _, _, _, hdisj⟩ := initializePosition_ok hp
  rcases hdisj with ⟨_, hpres⟩ | ⟨hfalse, _⟩
  · rw [hpres, hpos3, initSpecialWaypoint_positionModel]
    rfl
  · rw [hW3v] at hfalse
    exact absurd hfalse (by simp)

/-- Witness for C4: construction of CLAYT fails against an empty registry
and resolves to the registered position against the CLAYT registry. -/
theorem position_resolution_contract_witness :
  (∃ e, constructW [] (WaypointData.fixOnly CLAYT) = Except.error e) ∧
  (∃ p, assocLookup regCLAYT (strippedName CLAYT) = some p ∧
    ({ defaultWaypoint with name := CLAYT, positionModel := some (Pos.mk 1) } : WaypointModel).positionModel = some p) := by
constructor
· exact position_resolution_contract.1 [] (WaypointData.fixOnly CLAYT) (by decide) (by decide)
· exact position_resolution_contract.2.1 regCLAYT (WaypointData.fixOnly CLAYT) _ rfl (by decide)

/-- C5: the strict bearing and distance calculations throw whenever the
argument is not a WaypointModel or either endpoint is a vector waypoint;
they never return a number under a violated precondition. -/
theorem strict_bearing_distance_contract :
  ∀ (bearingFn distanceFn : Pos → Pos → ℝ) (self : WaypointModel) (arg : BearingArg),
    (arg = BearingArg.notWaypointModel ∨ self.isVectorWaypoint = true ∨
      (∃ x, arg = BearingArg.wp x ∧ x.isVectorWaypoint = true)) →
    (∃ e, calculateBearingToWaypoint bearingFn self arg = Except.error e) ∧
    (∃ e, calculateDistanceToWaypoint distanceFn self arg = Except.error e) := by
intro bearingFn distanceFn self arg h
cases arg with
| notWaypointModel =>
  exact ⟨⟨Err.notAWaypointModel, rfl⟩, ⟨Err.notAWaypointModel, rfl⟩⟩
| wp other =>
  have hv : (self.isVectorWaypoint || other.isVectorWaypoint) = true := by
    rcases h with h | h | ⟨x, hx, hxv⟩
    · exact absurd h (by simp)
    · simp [h]
    · simp at hx
      subst hx
      simp [hxv]
  constructor
  · exact ⟨Err.vectorWaypointCalculation, by
      simp [calculateBearingToWaypoint, ensureNonVectorWaypointsForThisAndWaypoint, hv]⟩
  · exact ⟨Err.vectorWaypointCalculation, by
      simp [calculateDistanceToWaypoint, ensureNonVectorWaypointsForThisAndWaypoint, hv]⟩

theorem count_replaceFirst_self (c : Char) (s : JsStr) : (replaceFirst c s).count c = s.count c - (if c ∈ s then 1 else 0) := by
induction s with
| nil => simp [replaceFirst]
| cons x xs ih =>
  by_cases hx : x = c
  · subst hx
    simp [replaceFirst, List.count_cons]
  · have hcx : ¬(c = x) := fun he => hx he.symm
    simp [replaceFirst, hx, hcx, List.count_cons, ih]

theorem count_replaceFirst_other {c d : Char} (h : d ≠ c) (s : JsStr) : (replaceFirst c s).count d = s.count d := by
induction s with
| nil => simp [replaceFirst]
| cons x xs ih =>
  by_cases hx : x = c
  · subst hx
    simp [replaceFirst, List.count_cons, h]
  · simp [replaceFirst, hx, List.count_cons, ih]

theorem mem_replaceFirst_other {c d : Char} (h : d ≠ c) (s : JsStr) : d ∈ replaceFirst c s ↔ d ∈ s := by
rw [← List.count_pos_iff, ← List.count_pos_iff, count_replaceFirst_other h]

/-- The registry and expected waypoint of the double-at example. -/
def regDoubleAt : List (JsStr × Pos) := [((['@', 'C', 'L', 'A', 'Y', 'T'] : JsStr), Pos.mk 3)]

/-- The waypoint built from the double-at CLAYT token: one at-sign is left
in the stored name. -/
def doubleAtWaypoint : WaypointModel :=
{ defaultWaypoint with
  name := ['@', 'C', 'L', 'A', 'Y', 'T']
  isHoldWaypoint := true
  positionModel := some (Pos.mk 3) }

/-- C10: the stored name loses only the first at-sign and only the first
caret of the raw token while every hash is kept, so a doubled marker leaves
one marker character in the name, as the double-at CLAYT example shows; and
classification reacts to a marker anywhere in the token, not only to a
leading one. -/
theorem marker_stripping :
  (∀ (reg : List (JsStr × Pos)) (d : WaypointData) (w : WaypointModel), constructW reg d = Except.ok w →
     w.name.count '@' = (waypointDataFixName d).count '@' - (if ('@') ∈ waypointDataFixName d then 1 else 0) ∧
     w.name.count '^' = (waypointDataFixName d).count '^' - (if ('^') ∈ waypointDataFixName d then 1 else 0) ∧
     w.name.count '#' = (waypointDataFixName d).count '#') ∧
  (∀ (reg : List (JsStr × Pos)) (d : WaypointData) (w : WaypointModel), constructW reg d = Except.ok w →
     ('^') ∈ waypointDataFixName d → w.isFlyOverWaypoint = true) ∧
  constructW regDoubleAt (WaypointData.fixOnly ['@', '@', 'C', 'L', 'A', 'Y', 'T']) = Except.ok doubleAtWaypoint := by
refine ⟨?_, ?_, ?_⟩
· intro reg d w h
  rw [constructW_name h]
  unfold strippedName
  refine ⟨?_, ?_, ?_⟩
  · rw [count_replaceFirst_other (by decide), count_replaceFirst_self]
  · rw [count_replaceFirst_self, count_replaceFirst_other (by decide)]
    simp only [mem_replaceFirst_other (show ('^' : Char) ≠ '@' by decide)]
  · rw [count_replaceFirst_other (by decide), count_replaceFirst_other (by decide)]
· intro reg d w h h1
  rw [(constructW_flags h).1]
  simp [h1]
· rfl

/-- Witness for C10: the count characterization applied to the double-at
example, whose stored name keeps one of the two at-signs. -/
theorem marker_stripping_witness : doubleAtWaypoint.name.count '@' = 1 := by
have h := (marker_stripping.1 regDoubleAt (WaypointData.fixOnly ['@', '@', 'C', 'L', 'A', 'Y', 'T']) doubleAtWaypoint marker_stripping.2.2).1
rw [h]
decide

/-- A vector waypoint value used to exercise the strict guard. -/
def vectorGuardWaypoint : WaypointModel :=
{ defaultWaypoint with isVectorWaypoint := true }

/-- Witness for C5: both strict calculations throw on a vector receiver. -/
theorem strict_bearing_distance_contract_witness :
  (∃ e, calculateBearingToWaypoint (fun _ _ => (0 : ℝ)) vectorGuardWaypoint (BearingArg.wp vectorGuardWaypoint) = Except.error e) ∧
  (∃ e, calculateDistanceToWaypoint (fun _ _ => (0 : ℝ)) vectorGuardWaypoint (BearingArg.wp vectorGuardWaypoint) = Except.error e) :=
strict_bearing_distance_contract (fun _ _ => (0 : ℝ)) (fun _ _ => (0 : ℝ)) vectorGuardWaypoint (BearingArg.wp vectorGuardWaypoint) (Or.inr (Or.inl rfl))

/-!  Lemmas about the navigation library embedding. -/

/-- The collection-building loop can only throw its duplicate error. -/
theorem keyedInsertFold_error_eq {β γ : Type} (mk : JsStr → β → γ) (e0 : Err) : ∀ (l : List (JsStr × β)) (col : List (JsStr × γ)) (er : Err), keyedInsertFold mk e0 col l = Except.error er → er = e0 := by
intro l
induction l with
| nil =>
  intro col er h
  simp [keyedInsertFold] at h
| cons kv rest ih =>
  intro col er h
  obtain ⟨k, v⟩ := kv
  by_cases hk : k ∈ keysOf col
  · simp [keyedInsertFold, hk] at h
    exact h.symm
  · simp [keyedInsertFold, hk] at h
    exact ih _ er h

/-- A key already present in the accumulated collection or duplicated in the
remaining input makes the collection-building loop throw, whatever follows
the duplicate entry. -/
theorem keyedInsertFold_dup {β γ : Type} (mk : JsStr → β → γ) (e0 : Err) (k : JsStr) (v : β) : ∀ (l1 l2 : List (JsStr × β)) (col : List (JsStr × γ)), k ∈ keysOf col ∨ k ∈ keysOf l1 → keyedInsertFold mk e0 col (l1 ++ (k, v) :: l2) = Except.error e0 := by
intro l1
induction l1 with
| nil =>
  intro l2 col h
  rcases h with h | h
  · simp [keyedInsertFold, h]
  · simp [keysOf] at h
| cons kv l1 ih =>
  intro l2 col h
  obtain ⟨k1, v1⟩ := kv
  by_cases hk : k1 ∈ keysOf col
  · simp [keyedInsertFold, hk]
  · have e : keysOf (col ++ [(k1, mk k1 v1)]) = keysOf col ++ [k1] := by simp [keysOf]
    have hnext : k ∈ keysOf (col ++ [(k1, mk k1 v1)]) ∨ k ∈ keysOf l1 := by
      rcases h with h | h
      · left
        rw [e]
        exact List.mem_append_left _ h
      · have h' : k = k1 ∨ k ∈ keysOf l1 := List.mem_cons.mp h
        rcases h' with h' | h'
        · subst h'
          left
          rw [e]
          exact List.mem_append_right _ (by simp)
        · right
          exact h'
    simp [keyedInsertFold, hk]
    exact ih l2 _ hnext

/-- Input with pairwise distinct keys, none already present, folds cleanly
and appends its keys in order. -/
theorem keyedInsertFold_ok_of_nodup {β γ : Type} (mk : JsStr → β → γ) (e0 : Err) : ∀ (l : List (JsStr × β)) (col : List (JsStr × γ)), (keysOf col ++ keysOf l).Nodup → ∃ col', keyedInsertFold mk e0 col l = Except.ok col' ∧ keysOf col' = keysOf col ++ keysOf l := by
intro l
induction l with
| nil =>
  intro col _
  exact ⟨col, rfl, by simp [keysOf]⟩
| cons kv rest ih =>
  intro col hnd
  obtain ⟨k, v⟩ := kv
  have hnd' : (keysOf col ++ (k :: keysOf rest)).Nodup := by
    simpa [keysOf] using hnd
  rw [List.nodup_append] at hnd'
  obtain ⟨h1, h2, hdisj⟩ := hnd'
  have hk : k ∉ keysOf col := fun hm => hdisj hm (List.mem_cons_self k _)
  have hstep : keysOf (col ++ [(k, mk k v)]) = keysOf col ++ [k] := by simp [keysOf]
  have hnd2 : (keysOf (col ++ [(k, mk k v)]) ++ keysOf rest).Nodup := by
    rw [hstep, List.append_assoc]
    have : ([k] ++ keysOf rest : List JsStr) = k :: keysOf rest := rfl
    rw [this, List.nodup_append]
    exact ⟨h1, h2, hdisj⟩
  obtain ⟨col', hcol', hkeys⟩ := ih (col ++ [(k, mk k v)]) hnd2
  refine ⟨col', ?_, ?_⟩
  · simp [keyedInsertFold, hk]
    exact hcol'
  · rw [hkeys, hstep, List.append_assoc]
    simp [keysOf]

/-- A fold that throws is unaffected by anything that would come after. -/
theorem initializeProcedureCollection_sid_dup (col : List (JsStr × ProcedureModel)) (s1 : List (JsStr × List JsStr)) (k : JsStr) (v : List JsStr) (s2 stars : List (JsStr × List JsStr)) (h : k ∈ keysOf col ∨ k ∈ keysOf s1) : initializeProcedureCollection col (s1 ++ (k, v) :: s2) stars = Except.error Err.duplicateProcedure := by
unfold initializeProcedureCollection
rw [keyedInsertFold_dup _ _ k v s1 s2 col h]

/-- A successful fold appends the input keys to the collection keys. -/
theorem keyedInsertFold_ok_keys {β γ : Type} (mk : JsStr → β → γ) (e0 : Err) : ∀ (l : List (JsStr × β)) (col col' : List (JsStr × γ)), keyedInsertFold mk e0 col l = Except.ok col' → keysOf col' = keysOf col ++ keysOf l := by
intro l
induction l with
| nil =>
  intro col col' h
  simp [keyedInsertFold] at h
  subst h
  simp [keysOf]
| cons kv rest ih =>
  intro col col' h
  obtain ⟨k, v⟩ := kv
  by_cases hk : k ∈ keysOf col
  · simp [keyedInsertFold, hk] at h
  · simp [keyedInsertFold, hk] at h
    rw [ih _ _ h]
    simp [keysOf]

/-- A procedure id seen among the sids, the earlier stars, or the previous
collection makes the star fold throw. -/
theorem initializeProcedureCollection_star_dup (col : List (JsStr × ProcedureModel)) (sids : List (JsStr × List JsStr)) (s1 : List (JsStr × List JsStr)) (k : JsStr) (v : List JsStr) (s2 : List (JsStr × List JsStr)) (h : k ∈ keysOf col ∨ k ∈ keysOf sids ∨ k ∈ keysOf s1) : initializeProcedureCollection col sids (s1 ++ (k, v) :: s2) = Except.error Err.duplicateProcedure := by
unfold initializeProcedureCollection
match hs : keyedInsertFold (fun _ v => ProcedureModel.mk ProcType.sid v) Err.duplicateProcedure col sids with
| Except.error er =>
  rw [keyedInsertFold_error_eq _ _ _ _ _ hs]
| Except.ok c =>
  have hkeys : keysOf c = keysOf col ++ keysOf sids := keyedInsertFold_ok_keys _ _ _ _ _ hs
  apply keyedInsertFold_dup
  rcases h with h | h | h
  · left
    rw [hkeys]
    exact List.mem_append_left _ h
  · left
    rw [hkeys]
    exact List.mem_append_right _ h
  · right
    exact h

/-- C7: within one init call, an airway name already defined, or a
procedure id already defined across the combined SID and STAR namespaces,
makes the collection build throw its duplicate error, whatever airways or
procedures would come later in the mapping: nothing after the first
duplicate is ever processed, and the error surfaces at load time. -/
theorem duplicate_definition_fail_fast :
  (∀ (col : List (JsStr × AirwayModel)) (l1 : List (JsStr × List JsStr)) (k : JsStr) (v : List JsStr) (l2 : List (JsStr × List JsStr)),
     k ∈ keysOf col ∨ k ∈ keysOf l1 →
     initializeAirwayCollection col (l1 ++ (k, v) :: l2) = Except.error Err.duplicateAirway) ∧
  (∀ (col : List (JsStr × ProcedureModel)) (s1 : List (JsStr × List JsStr)) (k : JsStr) (v : List JsStr) (s2 stars : List (JsStr × List JsStr)),
     k ∈ keysOf col ∨ k ∈ keysOf s1 →
     initializeProcedureCollection col (s1 ++ (k, v) :: s2) stars = Except.error Err.duplicateProcedure) ∧
  (∀ (col : List (JsStr × ProcedureModel)) (sids s1 : List (JsStr × List JsStr)) (k : JsStr) (v : List JsStr) (s2 : List (JsStr × List JsStr)),
     k ∈ keysOf col ∨ k ∈ keysOf sids ∨ k ∈ keysOf s1 →
     initializeProcedureCollection col sids (s1 ++ (k, v) :: s2) = Except.error Err.duplicateProcedure) := by
refine ⟨?_, ?_, ?_⟩
· intro col l1 k v l2 h
  exact keyedInsertFold_dup _ _ k v l1 l2 col h
· intro col s1 k v s2 stars h
  exact initializeProcedureCollection_sid_dup col s1 k v s2 stars h
· intro col sids s1 k v s2 h
  exact initializeProcedureCollection_star_dup col sids s1 k v s2 h

/-- Witness for C7: an airway mapping naming V twice throws the duplicate
airway error, and a STAR reusing the id of a SID throws the duplicate
procedure error. -/
theorem duplicate_definition_fail_fast_witness :
  initializeAirwayCollection [] [((['V'] : JsStr), [CLAYT]), ((['V'] : JsStr), [CLAYT])] = Except.error Err.duplicateAirway ∧
  initializeProcedureCollection [] [((['P'] : JsStr), [CLAYT])] [((['P'] : JsStr), [CLAYT])] = Except.error Err.duplicateProcedure := by
constructor
· exact duplicate_definition_fail_fast.1 [] [((['V'] : JsStr), [CLAYT])] ['V'] [CLAYT] [] (Or.inr (by decide))
· exact duplicate_definition_fail_fast.2.2 [] [((['P'] : JsStr), [CLAYT])] [] ['P'] [CLAYT] [] (Or.inr (Or.inl (by decide)))

/-!  Lemmas about the integrity scan. -/

theorem mem_jsUniqAux : ∀ (l : List JsStr) (seen : List JsStr) (a : JsStr), a ∈ jsUniqAux seen l ↔ a ∈ l ∧ a ∉ seen := by
intro l
induction l with
| nil =>
  intro seen a
  simp [jsUniqAux]
| cons x xs ih =>
  intro seen a
  by_cases hx : x ∈ seen
  · rw [show jsUniqAux seen (x :: xs) = jsUniqAux seen xs from by simp [jsUniqAux, hx]]
    rw [ih]
    constructor
    · intro ⟨h1, h2⟩
      exact ⟨List.mem_cons_of_mem x h1, h2⟩
    · rintro ⟨h1, h2⟩
      rcases List.mem_cons.mp h1 with h1 | h1
      · subst h1
        exact absurd hx h2
      · exact ⟨h1, h2⟩
  · rw [show jsUniqAux seen (x :: xs) = x :: jsUniqAux (x :: seen) xs from by simp [jsUniqAux, hx]]
    constructor
    · intro hm
      rcases List.mem_cons.mp hm with hm | hm
      · subst hm
        exact ⟨List.mem_cons_self a xs, hx⟩
      · obtain ⟨h1, h2⟩ := (ih (x :: seen) a).mp hm
        exact ⟨List.mem_cons_of_mem x h1, fun hs => h2 (List.mem_cons_of_mem x hs)⟩
    · rintro ⟨h1, h2⟩
      rcases List.mem_cons.mp h1 with h1 | h1
      · subst h1
        exact List.mem_cons_self a _
      · by_cases hax : a = x
        · subst hax
          exact List.mem_cons_self a _
        · exact List.mem_cons_of_mem x ((ih (x :: seen) a).mpr ⟨h1, by simp [hax, h2]⟩)

theorem nodup_jsUniqAux : ∀ (l : List JsStr) (seen : List JsStr), (jsUniqAux seen l).Nodup := by
intro l
induction l with
| nil =>
  intro seen
  simp [jsUniqAux]
| cons x xs ih =>
  intro seen
  by_cases hx : x ∈ seen
  · rw [show jsUniqAux seen (x :: xs) = jsUniqAux seen xs from by simp [jsUniqAux, hx]]
    exact ih seen
  · rw [show jsUniqAux seen (x :: xs) = x :: jsUniqAux (x :: seen) xs from by simp [jsUniqAux, hx]]
    rw [List.nodup_cons]
    refine ⟨fun hm => ?_, ih (x :: seen)⟩
    exact ((mem_jsUniqAux xs (x :: seen) x).mp hm).2 (List.mem_cons_self x seen)

theorem mem_jsUniq (l : List JsStr) (a : JsStr) : a ∈ jsUniq l ↔ a ∈ l := by
rw [jsUniq, mem_jsUniqAux]
simp

theorem nodup_jsUniq (l : List JsStr) : (jsUniq l).Nodup :=
nodup_jsUniqAux l []

theorem mem_sortStrings (l : List JsStr) (a : JsStr) : a ∈ sortStrings l ↔ a ∈ l := by
rw [sortStrings]
exact List.mem_insertionSort _

theorem sorted_sortStrings (l : List JsStr) : List.Sorted (fun a b => a ≤ b) (sortStrings l) :=
List.sorted_insertionSort _ l

theorem nodup_sortStrings {l : List JsStr} (h : l.Nodup) : (sortStrings l).Nodup :=
(List.perm_insertionSort _ l).nodup_iff.mpr h

/-- The three stages of navInit, written as one nested match. -/
theorem navInit_stages (airport : AirportJson) (st : NavState) :
  navInit airport st =
  match fixCollectionAddItems st.fixCollection airport.fixes with
  | Except.error e => Except.error e
  | Except.ok fixCol =>
    match initializeAirwayCollection st.airwayCollection airport.airways with
    | Except.error e => Except.error e
    | Except.ok airwayCol =>
      match initializeProcedureCollection st.procedureCollection airport.sids airport.stars with
      | Except.error e => Except.error e
      | Except.ok procCol =>
        Except.ok { fixCollection := fixCol, airwayCollection := airwayCol, procedureCollection := procCol, referencePosition := some airport.position } := rfl

/-- An airport whose airway V4 references the undefined fix BIKKR. -/
def BIKKR : JsStr := ['B', 'I', 'K', 'K', 'R']

/-- An airport whose only airway references one defined and one undefined
fix name. -/
def airportMissingFix : AirportJson :=
{ position := Pos.mk 0
  fixes := [(CLAYT, Pos.mk 1)]
  airways := [((['V', '4'] : JsStr), [CLAYT, BIKKR])]
  sids := []
  stars := [] }

/-- The library state airportMissingFix loads into. -/
def navStateMissingFix : NavState :=
{ fixCollection := [(CLAYT, Pos.mk 1)]
  airwayCollection := [((['V', '4'] : JsStr), AirwayModel.mk ['V', '4'] [CLAYT, BIKKR])]
  procedureCollection := []
  referencePosition := some (Pos.mk 0) }

/-- C8: init succeeds on any duplicate-free airport however many referenced
fixes are undefined; the computed missing-fix list holds exactly the
referenced-but-unresolved names, is sorted and duplicate-free; no warning
is emitted exactly when nothing is missing; and the airport whose airway
references the undefined BIKKR loads fine, with missing list BIKKR alone
and a warning carrying it. -/
theorem missing_fix_warning :
  (∀ airport : AirportJson, (keysOf airport.airways).Nodup →
     (keysOf airport.sids ++ keysOf airport.stars).Nodup →
     ∃ st, navInit airport initialNav = Except.ok st) ∧
  (∀ (st : NavState) (x : JsStr),
     x ∈ navMissingFixes st ↔ x ∈ referencedFixNames st ∧ navFindFixByName st x = none) ∧
  (∀ st : NavState, List.Sorted (fun a b => a ≤ b) (navMissingFixes st) ∧ (navMissingFixes st).Nodup) ∧
  (∀ st : NavState, showConsoleWarningForUndefinedFixes st = none ↔ navMissingFixes st = []) ∧
  (navInit airportMissingFix initialNav = Except.ok navStateMissingFix ∧
     navMissingFixes navStateMissingFix = [BIKKR] ∧
     showConsoleWarningForUndefinedFixes navStateMissingFix = some [BIKKR]) := by
refine ⟨?_, ?_, ?_, ?_, ?_, ?_, ?_⟩
· intro airport h1 h2
  obtain ⟨aCol, hA, _⟩ := keyedInsertFold_ok_of_nodup (fun airwayName fixNames => AirwayModel.mk airwayName fixNames) Err.duplicateAirway airport.airways [] (by simpa [keysOf] using h1)
  obtain ⟨sCol, hS, hSkeys⟩ := keyedInsertFold_ok_of_nodup (fun _ v => ProcedureModel.mk ProcType.sid v) Err.duplicateProcedure airport.sids [] (by simpa [keysOf] using h2.of_append_left)
  obtain ⟨pCol, hT, _⟩ := keyedInsertFold_ok_of_nodup (fun _ v => ProcedureModel.mk ProcType.star v) Err.duplicateProcedure airport.stars sCol (by rw [hSkeys]; simpa [keysOf] using h2)
  have hP : initializeProcedureCollection initialNav.procedureCollection airport.sids airport.stars = Except.ok pCol := by
    unfold initializeProcedureCollection
    rw [show keyedInsertFold (fun _ v => ProcedureModel.mk ProcType.sid v) Err.duplicateProcedure initialNav.procedureCollection airport.sids = Except.ok sCol from hS]
    exact hT
  have e1 : fixCollectionAddItems initialNav.fixCollection airport.fixes = Except.ok airport.fixes := by
    simp [initialNav, fixCollectionAddItems]
  have e2 : initializeAirwayCollection initialNav.airwayCollection airport.airways = Except.ok aCol := hA
  refine ⟨{ fixCollection := airport.fixes, airwayCollection := aCol, procedureCollection := pCol, referencePosition := some airport.position }, ?_⟩
  rw [navInit_stages, e1, e2, hP]
· intro st x
  simp only [navMissingFixes, navGetAllFixNamesInUse]
  rw [List.mem_filter, mem_sortStrings, mem_jsUniq]
  rw [show ((st.airwayCollection.map fun kv => kv.2.fixNameCollection) ++ st.procedureCollection.map fun kv => kv.2.fixNamesInUse).flatten = referencedFixNames st from rfl]
  rw [Option.isNone_iff_eq_none]
· intro st
  constructor
  · exact (sorted_sortStrings _).filter _
  · exact (nodup_sortStrings (nodup_jsUniq _)).filter _
· intro st
  unfold showConsoleWarningForUndefinedFixes
  by_cases h : navMissingFixes st = []
  · simp [h]
  · simp [h, List.length_eq_zero]
· rfl
· rfl
· rfl

/-- Witness for C8: the duplicate-free airport with the undefined BIKKR
reference loads without error. -/
theorem missing_fix_warning_witness :
  ∃ st, navInit airportMissingFix initialNav = Except.ok st :=
missing_fix_warning.1 airportMissingFix (by decide) (by decide)

/-- A successful init leaves the loaded fixes in the fix collection. -/
theorem navInit_ok_fixCollection {airport : AirportJson} {st st' : NavState} (h : navInit airport st = Except.ok st') : st'.fixCollection = airport.fixes := by
rw [navInit_stages] at h
split at h
· simp at h
· rename_i fixCol heq
  split at h
  · simp at h
  · split at h
    · simp at h
    · simp at h
      subst h
      unfold fixCollectionAddItems at heq
      split at heq
      · simp at heq
        exact heq.symm
      · simp at heq

/-- Calling init on a library whose fix collection is already populated
throws when the fix collection refuses repopulation. -/
theorem navInit_populated {airport : AirportJson} {st : NavState} (h : st.fixCollection ≠ []) : navInit airport st = Except.error Err.fixCollectionAlreadyPopulated := by
have hb : st.fixCollection.isEmpty = false := by simpa [List.isEmpty_iff] using h
rw [navInit_stages]
simp [fixCollectionAddItems, hb]

/-- C9 as amended: a second init without an intervening reset throws, for
any first airport that loaded at least one fix, because the fix collection
refuses repopulation; the query methods called on the uninitialized library
do not throw but return explicit absence values. -/
theorem navigation_lifecycle :
  (∀ (a1 a2 : AirportJson) (st : NavState), navInit a1 initialNav = Except.ok st → a1.fixes ≠ [] →
     navInit a2 st = Except.error Err.fixCollectionAlreadyPopulated) ∧
  (∀ name : JsStr,
     navHasAirway initialNav name = false ∧ navGetAirway initialNav name = none ∧
     navHasProcedure initialNav name = false ∧ navGetProcedure initialNav name = none ∧
     navFindFixByName initialNav name = none ∧ navHasFixName initialNav name = false ∧
     navGetFixRelativePosition initialNav name = none) ∧
  navHasSids initialNav = false ∧ navHasStars initialNav = false := by
refine ⟨?_, ?_, rfl, rfl⟩
· intro a1 a2 st h hne
  have hfc : st.fixCollection = a1.fixes := navInit_ok_fixCollection h
  exact navInit_populated (by rw [hfc]; exact hne)
· intro name
  exact ⟨rfl, rfl, rfl, rfl, rfl, rfl, rfl⟩

/-- Counterexample to C9 as stated: on the uninitialized library every
query method returns an ordinary absence value instead of raising. -/
theorem navigation_query_before_init_returns :
  navHasAirway initialNav ['V', '4'] = false ∧
  navGetAirway initialNav ['V', '4'] = none ∧
  navHasProcedure initialNav ['O', 'F', 'F', 'S', '3'] = false ∧
  navGetProcedure initialNav ['O', 'F', 'F', 'S', '3'] = none ∧
  navFindFixByName initialNav CLAYT = none ∧
  navHasFixName initialNav CLAYT = false ∧
  navGetFixRelativePosition initialNav CLAYT = none ∧
  navHasSids initialNav = false ∧
  navHasStars initialNav = false :=
⟨rfl, rfl, rfl, rfl, rfl, rfl, rfl, rfl, rfl⟩

/-- Witness for C9 as amended: loading the BIKKR airport and then calling
init again without reset throws the repopulation error. -/
theorem navigation_lifecycle_witness :
  navInit airportMissingFix navStateMissingFix = Except.error Err.fixCollectionAlreadyPopulated :=
navigation_lifecycle.1 airportMissingFix airportMissingFix navStateMissingFix rfl (by decide)

end OpenScope
